import Mathlib

/-!
Shallow embedding of the `Code-Snippets` repository's two in-scope components:

* `src/python/utils/dynamic_array.py` — the fluent collection pipeline
  (class `array` with chainable operations and a class-wide debug flag);
* `src/python/database/sqlalchemy_adapter.py` and `src/python/use_cases.py`
  — the record adapter (`SQLAlchemySQLDbAdapter`) and the generic CRUD
  use-case engine (`CRUDUseCase` over a `CRUDSpec`).

Python lists become Lean `List`s; in-place mutation becomes explicit state
passing (a database is a `List` of records, each operation returns the new
database); Python exceptions become `Except String`; Python `None` becomes
`Option.none`.
-/

namespace Spec2Proof

/-! ## Fluent collection pipeline (`dynamic_array.py`)

Pipeline elements in Python are untyped and may themselves be sequences.
`Nested α` models that element universe: an element is either an atomic
value (`atom`) or a sequence of elements (`list`, covering the Python
`list`/`tuple`/`set` branch of the `isinstance` checks). -/

inductive Nested (α : Type) where
  | atom : α → Nested α
  | list : List (Nested α) → Nested α

/-- The `array` pipeline class: its only state is the internal ordered
sequence `self.items`. -/
structure array (α : Type) where
  items : List α
  deriving DecidableEq

/-- `array.__init__`: zero args give an empty sequence; a single
sequence-like arg (`list`/`tuple`/`set`) is unpacked into its elements;
otherwise the args themselves are the elements. -/
def array.ofArgs {α : Type} (args : List (Nested α)) : array (Nested α) :=
  match args with
  | [Nested.list xs] => ⟨xs⟩
  | _ => ⟨args⟩

/-- Recognizer for the constructor's unpacking case: exactly one argument
and it is a sequence (`isinstance(args[0], (list, tuple, set))`). -/
def isSingleSeq {α : Type} : List (Nested α) → Bool
  | [Nested.list _] => true
  | _ => false

/-- `array.reverse`: `self.items.reverse()` in place; returns self. -/
def array.reverse {α : Type} (a : array α) : array α :=
  ⟨a.items.reverse⟩

/-- `array.build` with no index: returns the whole internal sequence. -/
def array.build {α : Type} (a : array α) : List α :=
  a.items

mutual
/-- The inner `unpack` helper of `array.flatten`: a non-list value becomes a
one-element list, a list is flattened recursively, left to right. -/
def unpack {α : Type} : Nested α → List α
  | Nested.atom a => [a]
  | Nested.list xs => unpackList xs

/-- `[item for sublist in array_of_arrays for item in unpack(sublist)]`. -/
def unpackList {α : Type} : List (Nested α) → List α
  | [] => []
  | x :: xs => unpack x ++ unpackList xs
end

/-- `array.flatten`: `self.items = unpack(self.items)` — since `self.items`
is a Python list, this concatenates `unpack` of each element in order. -/
def array.flatten {α : Type} (a : array (Nested α)) : array α :=
  ⟨unpackList a.items⟩

/-! ### `array.validate`

An element entering `validate` is classified the way the Python code does:
either it is already an instance of the schema (`inst`), or it is a `dict`
(`dictE`, carrying raw data of type `D`), or it is anything else (`other`,
carrying the name of its Python type for the error message).  Constructing
a schema instance from a dict (`schema(**item)`) may fail with a pydantic
`ValidationError`, modelled as the `Except.error` case of `construct`. -/

inductive PElem (S D : Type) where
  | inst : S → PElem S D
  | dictE : D → PElem S D
  | other : String → PElem S D
  deriving DecidableEq

/-- The `for item in self.items` loop of `array.validate`.  A dict that
fails construction raises `pydantic.ValidationError`, which the `except`
clause catches: the item is reported and dropped.  An element that is
neither a dict nor a schema instance raises a `TypeError`, which the
`except pydantic.ValidationError` clause does NOT catch: it propagates out
of the loop (and out of the pipeline). -/
def validateGo {S D : Type} (construct : D → Except String S) (schemaName : String) :
    List (PElem S D) → Except String (List S)
  | [] => Except.ok []
  | PElem.inst s :: rest => (validateGo construct schemaName rest).map (s :: ·)
  | PElem.dictE d :: rest =>
    match construct d with
    | Except.ok s => (validateGo construct schemaName rest).map (s :: ·)
    | Except.error _ => validateGo construct schemaName rest
  | PElem.other tyName :: _ =>
    Except.error ("TypeError: Item must be a dict or " ++ schemaName ++
      " instance, got " ++ tyName)

/-- `array.validate(schema)`: runs the loop and returns a NEW array
(`array(*validated_items)`) retyped to the schema's element type.  (The
validated items are pydantic model instances, never `list`/`tuple`/`set`,
so the constructor's unpacking branch cannot fire on them.) -/
def array.validate {S D : Type} (construct : D → Except String S) (schemaName : String)
    (a : array (PElem S D)) : Except String (array S) :=
  (validateGo construct schemaName a.items).map array.mk

/-! ### Debug tracing (`array.debug` decorator and `array.safe_repr`) -/

/-- `array.safe_repr`: `repr(item)`, with any exception caught and replaced
by a placeholder string.  `rp` models Python's `repr`, which may raise
(`Except.error`). -/
def safe_repr {α : Type} (rp : α → Except String String) (item : α) : String :=
  match rp item with
  | Except.ok s => s
  | Except.error e => "<Unrepresentable Object: " ++ e ++ ">"

/-- The `@debug` decorator around a pipeline method `func`.  When the
class-wide `debug_active` flag is set it prints a snapshot of the items
before and after calling `func`, then returns `func`'s result unchanged;
when the flag is clear it just calls `func`.  The result is the pair of
`func`'s result and the list of printed lines.  (Every mutating pipeline
method returns `self`, so after the call `self.items` and the result's
items are the same list.) -/
def array.debugRun {α β : Type} (debug_active : Bool)
    (rpa : α → Except String String) (rpb : β → Except String String)
    (funcName : String) (func : array α → array β) (a : array α) :
    array β × List String :=
  let pre :=
    if debug_active then
      ["[BEFORE]: " ++ funcName ++ ": [" ++
        String.intercalate ", " (a.items.map (safe_repr rpa)) ++ "]"]
    else []
  let result := func a
  let post :=
    if debug_active then
      ["[AFTER]: " ++ funcName ++ ": [" ++
        String.intercalate ", " (result.items.map (safe_repr rpb)) ++ "]"]
    else []
  (result, pre ++ post)

/-! ## Record adapter (`sqlalchemy_adapter.py`)

A record (ORM row) is modelled by its column attributes — a total function
from column names to values of type `V` — plus its relationship attributes.
`rel name = none` models "no attribute of that name on the object";
`rel name = some none` models "the attribute exists and holds Python
`None`" (an unset one-to-one relationship); `rel name = some (some rv)`
models a set relationship holding either a single related row or a list of
related rows (related rows appear through their column attributes, which is
all the read projection consumes).

A database session's table contents are a `List` of records; each adapter
operation returns the updated list alongside its Python return value. -/

/-- The column attributes of an ORM row. -/
def Attrs (V : Type) := String → V

/-- The value held by a relationship attribute that is set: a single
related row or a collection of related rows. -/
inductive RelValue (V : Type) where
  | one : Attrs V → RelValue V
  | many : List (Attrs V) → RelValue V

/-- An ORM row: column attributes plus relationship attributes. -/
structure Rec (V : Type) where
  attrs : Attrs V
  rel : String → Option (Option (RelValue V))

/-- `setattr(row, k, v)` on a column attribute. -/
def Rec.setAttr {V : Type} (r : Rec V) (k : String) (v : V) : Rec V :=
  { r with attrs := fun k' => if k' = k then v else r.attrs k' }

/-- `getattr(row, name, None)` on a relationship attribute: a missing
attribute and an attribute holding `None` both yield `none`. -/
def Rec.getattrRel {V : Type} (r : Rec V) (name : String) : Option (RelValue V) :=
  match r.rel name with
  | none => none
  | some v => v

variable {V R : Type}

/-- Does the row satisfy `filter_by(**kwargs)` — the conjunction of
equality filters given by the keyword arguments? -/
def matchesBy [DecidableEq V] (kwargs : List (String × V)) (r : Rec V) : Bool :=
  kwargs.all fun kv => decide (r.attrs kv.1 = kv.2)

/-- `session.query(class_table).filter_by(**kwargs).all()`. -/
def filterBy [DecidableEq V] (db : List (Rec V)) (kwargs : List (String × V)) :
    List (Rec V) :=
  db.filter (matchesBy kwargs)

/-- `SQLAlchemySQLDbAdapter.read_value`: `.filter_by(**kwargs).first()`,
returning `none` on a miss (the refresh on a hit does not change the row). -/
def read_value [DecidableEq V] (db : List (Rec V)) (kwargs : List (String × V)) :
    Option (Rec V) :=
  (filterBy db kwargs).head?

/-- `SQLAlchemySQLDbAdapter.read_all_values`: all rows of the table. -/
def read_all_values (db : List (Rec V)) : List (Rec V) := db

/-- Replace the first row satisfying `p` (the row object the session query
returned, which the Python code mutates in place). -/
def replaceFirst (p : Rec V → Bool) (newRow : Rec V) : List (Rec V) → List (Rec V)
  | [] => []
  | r :: rest => if p r then newRow :: rest else r :: replaceFirst p newRow rest

/-- `SQLAlchemySQLDbAdapter.update_values(class_table, row_id, **kwargs)`:
`row = query.filter_by(id=row_id).first()` — note the hard-coded column
name `id` — then `setattr(row, key, value)` for each keyword argument, then
flush/refresh/commit and `return row`.

The code never checks `row is None`.  When no row matches, `row` is Python
`None`: with at least one keyword argument the first `setattr(None, k, v)`
raises `AttributeError`; with no keyword arguments `session.refresh(None)`
raises (an unmapped-instance error).  Either way the call raises instead of
returning `None`, so the `Option` in the ok result — which mirrors the
declared return type `T | None` — is in fact always `some`. -/
def update_values [DecidableEq V] (db : List (Rec V)) (row_id : V)
    (kwargs : List (String × V)) : Except String (List (Rec V) × Option (Rec V)) :=
  match read_value db [("id", row_id)] with
  | none =>
    match kwargs with
    | [] => Except.error "UnmappedInstanceError: None is not mapped"
    | (k, _) :: _ =>
      Except.error ("AttributeError: 'NoneType' object has no attribute '" ++ k ++ "'")
  | some row =>
    let row2 := kwargs.foldl (fun acc kv => acc.setAttr kv.1 kv.2) row
    Except.ok (replaceFirst (matchesBy [("id", row_id)]) row2 db, some row2)

/-- `SQLAlchemySQLDbAdapter.add_value`: `session.add(new_row)`, commit,
refresh, `return new_row`.  (Storage-assigned fields are outside the
model: the refreshed row is the inserted row.) -/
def add_value (db : List (Rec V)) (newRow : Rec V) : List (Rec V) × Rec V :=
  (db ++ [newRow], newRow)

/-- `SQLAlchemySQLDbAdapter.delete_value`: queries all rows matching the
filters, deletes each of them, commits once, then re-queries with the same
filters and returns `True` iff that re-query yields the empty list.  The
result is (new table contents, returned flag, number of commits). -/
def delete_value [DecidableEq V] (db : List (Rec V)) (kwargs : List (String × V)) :
    List (Rec V) × Bool × Nat :=
  -- rows_to_delete = query.filter_by(**kwargs).all(); each is deleted,
  -- so the remaining rows are exactly those not matching the filters.
  let db2 := db.filter fun r => ! matchesBy kwargs r
  (db2, (filterBy db2 kwargs).isEmpty, 1)

/-! ## CRUD use-case engine (`use_cases.py`)

A write DTO enters the engine only through
`request.entity.model_dump(exclude_unset=True)`, so it is modelled by that
dump: the association list of its explicitly-set fields.  The spec's two
pure mapping functions are `to_read` (record → read DTO, `R` abstract) and
`to_orm_write` (dumped write DTO → new record). -/

/-- Model of `CRUDSpec`: the identifying field name and the two mapping
functions (`to_orm_write` builds the ORM row from the dumped DTO fields,
`to_read` projects a row's column attributes to the read DTO). -/
structure CRUDSpec (V R : Type) where
  id_field : String := "id"
  to_orm_write : List (String × V) → Rec V
  to_read : Attrs V → R

/-- `WriteEntityResponse`: envelope with stable key `response.entity`. -/
structure WriteEntityResponse (R : Type) where
  entity : R

/-- `ReadEntityResponse`: `entity` is the read DTO or the absent-value
marker `None`. -/
structure ReadEntityResponse (R : Type) where
  entity : Option R

/-- `ReadEntityRelationshipResponse`: the related entities, as read DTOs. -/
structure ReadEntityRelationshipResponse (R : Type) where
  related_entities : List R

/-- `CRUDUseCase.write_entity(request, entity_id)`.  With `entity_id`
present it calls the adapter's `update_values` and raises
`ValueError("Entity with id ... not found")` if that returned `None`; with
`entity_id` absent it maps the DTO to a new row, persists it and maps it
back.  `vstr` renders a `V` into the f-string of the `ValueError` message;
`fields` is `request.entity.model_dump(exclude_unset=True)`.  The result
pairs the new table contents with the response; `Except.error` models a
raised exception, from this method or propagated from the adapter. -/
def write_entity [DecidableEq V] (spec : CRUDSpec V R) (vstr : V → String)
    (db : List (Rec V)) (fields : List (String × V)) (entity_id : Option V) :
    Except String (List (Rec V) × WriteEntityResponse R) :=
  match entity_id with
  | some eid =>
    match update_values db eid fields with
    | Except.error e => Except.error e
    | Except.ok (_db2, none) =>
      Except.error ("ValueError: Entity with id " ++ vstr eid ++ " not found")
    | Except.ok (db2, some updated) =>
      Except.ok (db2, ⟨spec.to_read updated.attrs⟩)
  | none =>
    let orm_obj := spec.to_orm_write fields
    let (db2, created) := add_value db orm_obj
    Except.ok (db2, ⟨spec.to_read created.attrs⟩)

/-- `CRUDUseCase.read_entity(request)`: looks the row up by
`{spec.id_field: request.entity_id}` and wraps either the mapped read DTO
or `None`.  Every operation it performs is total, so it cannot raise. -/
def read_entity [DecidableEq V] (spec : CRUDSpec V R) (db : List (Rec V))
    (entity_id : V) : ReadEntityResponse R :=
  match read_value db [(spec.id_field, entity_id)] with
  | none => ⟨none⟩
  | some orm_obj => ⟨some (spec.to_read orm_obj.attrs)⟩

/-- `CRUDUseCase.read_entity_relationship(request)`: looks the entity up by
id; on a miss, or when `getattr(orm_obj, relationship, None)` yields
`None`, returns an empty list; a list-valued relationship is mapped
element-wise through the read projection, a single related row is wrapped
as a one-element list.  Every operation it performs is total, so it cannot
raise. -/
def read_entity_relationship [DecidableEq V] (spec : CRUDSpec V R)
    (db : List (Rec V)) (entity_id : V) (relationship : String) :
    ReadEntityRelationshipResponse R :=
  match read_value db [(spec.id_field, entity_id)] with
  | none => ⟨[]⟩
  | some orm_obj =>
    match orm_obj.getattrRel relationship with
    | none => ⟨[]⟩
    | some (RelValue.many xs) => ⟨xs.map spec.to_read⟩
    | some (RelValue.one x) => ⟨[spec.to_read x]⟩

/-! ## Concrete instances (used to evaluate the theorems on real inputs) -/

/-- Is the pipeline element the `other` (neither dict nor schema instance)
case? -/
def PElem.isOther {S D : Type} : PElem S D → Bool
  | PElem.other _ => true
  | _ => false

/-- Model of the schema `SchemaRequiringA` from the specification example:
constructing it from a dict succeeds iff the dict has a field `"a"`. -/
def schemaRequiringA (d : List (String × Nat)) : Except String Nat :=
  match d.lookup "a" with
  | some n => Except.ok n
  | none => Except.error "ValidationError: field a required"

/-- A concrete CRUD spec over integer-valued columns, with integer read
DTOs given by the `title` column. -/
def specItem : CRUDSpec Int Int where
  id_field := "id"
  to_orm_write := fun fields => ⟨fun k => (fields.lookup k).getD 0, fun _ => none⟩
  to_read := fun a => a "title"

/-- A concrete record with id 1, age 30. -/
def recAlice : Rec Int :=
  ⟨fun k => if k = "id" then 1 else if k = "age" then 30 else 0, fun _ => none⟩

/-- A concrete record with id 2. -/
def recBob : Rec Int :=
  ⟨fun k => if k = "id" then 2 else 0, fun _ => none⟩

/-- A concrete record with id 1 whose `friends` relationship attribute
exists but holds Python `None` (an unset one-to-one relationship). -/
def recLoner : Rec Int :=
  ⟨fun k => if k = "id" then 1 else 0,
   fun name => if name = "friends" then some none else none⟩

/-- A `repr` model that fails on every item. -/
def reprBoom : Nat → Except String String := fun _ => Except.error "boom"

/-! ## Theorems -/

/-- C7 (counterexample): the double-reverse law fails as universally
stated.  For the one-element sequence x1 = [1, 2] — a single sequence-like
argument — the constructor unpacks x1 into its elements, so
`array([1,2]).reverse().reverse().build()` is `[1, 2]`, not `[[1, 2]]`. -/
theorem array_double_reverse_counterexample :
    (array.ofArgs [Nested.list [Nested.atom (1 : Nat), Nested.atom 2]]).reverse.reverse.build
      ≠ [Nested.list [Nested.atom (1 : Nat), Nested.atom 2]] := by
  intro h
  have hlen := congrArg List.length h
  simp [array.ofArgs, array.reverse, array.build] at hlen

/-- C7 (amended): for every argument sequence that is not a lone
sequence-like element (so the constructor does not unpack it),
`array(x1,...,xn).reverse().reverse().build()` equals `[x1,...,xn]`:
double reverse is the identity on the internal sequence. -/
theorem array_double_reverse_identity {α : Type} (args : List (Nested α))
    (h : isSingleSeq args = false) :
    (array.ofArgs args).reverse.reverse.build = args := by
  have hof : array.ofArgs args = ⟨args⟩ := by
    unfold array.ofArgs
    split
    · rename_i xs
      simp [isSingleSeq] at h
    · rfl
  rw [hof]
  simp [array.reverse, array.build]

/-- C7 (witness): at the concrete argument sequence `1, 2, 3` the amended
law evaluates as stated. -/
theorem array_double_reverse_identity_witness :
    isSingleSeq [Nested.atom (1 : Nat), Nested.atom 2, Nested.atom 3] = false ∧
    (array.ofArgs [Nested.atom (1 : Nat), Nested.atom 2, Nested.atom 3]).reverse.reverse.build
      = [Nested.atom 1, Nested.atom 2, Nested.atom 3] :=
  ⟨rfl, array_double_reverse_identity _ rfl⟩

/-- C8: `flatten` concatenates the recursively flattened leaves of the
nested elements in left-to-right order (`unpackList` is a homomorphism for
append), and on the specification example
`array([1,[2,3],[4,[5,6]]]).flatten().build()` equals `[1,2,3,4,5,6]`. -/
theorem array_flatten_flattens :
    (∀ (α : Type) (xs ys : List (Nested α)),
      unpackList (xs ++ ys) = unpackList xs ++ unpackList ys) ∧
    (array.ofArgs [Nested.list [Nested.atom (1 : Nat),
        Nested.list [Nested.atom 2, Nested.atom 3],
        Nested.list [Nested.atom 4, Nested.list [Nested.atom 5, Nested.atom 6]]]]).flatten.build
      = [1, 2, 3, 4, 5, 6] := by
  constructor
  · intro α xs ys
    induction xs with
    | nil => rfl
    | cons x xs ih => simp [unpackList, ih, List.append_assoc]
  · rfl

/-- C9: the debug wrapper is a pure observation: for every pipeline
operation `func` and every input sequence, the resulting sequence with the
class-wide flag active equals the one with it inactive, both equal to the
undecorated operation; and an element whose formatting fails is rendered by
`safe_repr` as the placeholder string, the failure never propagating. -/
theorem array_debug_flag_pure {α β : Type}
    (rpa : α → Except String String) (rpb : β → Except String String)
    (funcName : String) (func : array α → array β) (a : array α) :
    (array.debugRun true rpa rpb funcName func a).1
      = (array.debugRun false rpa rpb funcName func a).1 ∧
    (array.debugRun false rpa rpb funcName func a).1 = func a ∧
    (∀ (x : α) (e : String), rpa x = Except.error e →
      safe_repr rpa x = "<Unrepresentable Object: " ++ e ++ ">") := by
  refine ⟨rfl, rfl, ?_⟩
  intro x e h
  simp [safe_repr, h]

/-- C9 (witness): with a formatter that fails on every element, tracing a
concrete `reverse` call with the flag active yields the same sequence as
with it inactive, and the failing element renders as the placeholder. -/
theorem array_debug_flag_pure_witness :
    (array.debugRun true reprBoom reprBoom "reverse" array.reverse ⟨[1, 2]⟩).1
      = (array.debugRun false reprBoom reprBoom "reverse" array.reverse ⟨[1, 2]⟩).1 ∧
    safe_repr reprBoom 1 = "<Unrepresentable Object: boom>" :=
  ⟨(array_debug_flag_pure reprBoom reprBoom "reverse" array.reverse ⟨[1, 2]⟩).1,
   (array_debug_flag_pure reprBoom reprBoom "reverse" array.reverse ⟨[1, 2]⟩).2.2
     1 "boom" rfl⟩

/-- C3 (counterexample): `validate` CAN raise out of the pipeline.  An
element that is neither a schema instance nor a dict (here a bare int)
hits the `raise TypeError(...)` branch, which the
`except pydantic.ValidationError` clause does not catch, so the error
propagates instead of the element being dropped. -/
theorem array_validate_raises_counterexample :
    array.validate schemaRequiringA "SchemaRequiringA" ⟨[PElem.other "int"]⟩
      = Except.error
          "TypeError: Item must be a dict or SchemaRequiringA instance, got int" := by
  rfl

/-- C3 (amended): provided every element is a schema instance or a dict,
`validate` never raises: each dict that fails validation is dropped after
being reported, the surviving elements are kept in order, and a pipeline
retyped to the schema's element type is returned.  An element of any other
kind instead raises a TypeError that propagates out of the pipeline. -/
theorem array_validate_drops_invalid {S D : Type}
    (construct : D → Except String S) (schemaName : String)
    (items : List (PElem S D))
    (h : items.all (fun e => ! e.isOther) = true) :
    array.validate construct schemaName ⟨items⟩
      = Except.ok ⟨items.filterMap (fun e =>
          match e with
          | PElem.inst s => some s
          | PElem.dictE d => (construct d).toOption
          | PElem.other _ => none)⟩ := by
  unfold array.validate
  have hgo : validateGo construct schemaName items
      = Except.ok (items.filterMap (fun e =>
          match e with
          | PElem.inst s => some s
          | PElem.dictE d => (construct d).toOption
          | PElem.other _ => none)) := by
    induction items with
    | nil => rfl
    | cons x rest ih =>
      simp only [List.all_cons, Bool.and_eq_true] at h
      cases x with
      | inst s => simp [validateGo, ih h.2, List.filterMap_cons, Except.map]
      | dictE d =>
        cases hc : construct d with
        | ok s =>
          simp [validateGo, hc, ih h.2, List.filterMap_cons, Except.toOption, Except.map]
        | error e =>
          simp [validateGo, hc, ih h.2, List.filterMap_cons, Except.toOption, Except.map]
      | other t => simp [PElem.isOther] at h
  rw [hgo]
  rfl

/-- C3 (witness): the specification example — two dicts, the second lacking
the required field — drops the second element and keeps the one validated
instance. -/
theorem array_validate_drops_invalid_witness :
    (([PElem.dictE [("a", 1)], PElem.dictE [("bad", 0)]] :
        List (PElem Nat (List (String × Nat)))).all (fun e => ! e.isOther) = true) ∧
    array.validate schemaRequiringA "SchemaRequiringA"
        ⟨[PElem.dictE [("a", 1)], PElem.dictE [("bad", 0)]]⟩
      = Except.ok ⟨[1]⟩ := by
  refine ⟨by decide, ?_⟩
  rw [array_validate_drops_invalid schemaRequiringA "SchemaRequiringA" _ (by decide)]
  rfl

/-- Helper: a key outside the key list looks up to `none`. -/
theorem lookup_eq_none_of_not_mem {V : Type} (u : List (String × V)) (k : String)
    (h : k ∉ u.map Prod.fst) : u.lookup k = none := by
  induction u with
  | nil => rfl
  | cons kv rest ih =>
    simp only [List.map_cons, List.mem_cons, not_or] at h
    simp [List.lookup, beq_eq_false_iff_ne.mpr h.1, ih h.2]

/-- Helper: running the `setattr` loop of `update_values` over keyword
arguments with distinct keys sets each named column to its given value and
leaves every other column unchanged. -/
theorem foldl_setAttr_attrs {V : Type} (u : List (String × V)) (r : Rec V) (k : String)
    (hnd : (u.map Prod.fst).Nodup) :
    (u.foldl (fun acc kv => acc.setAttr kv.1 kv.2) r).attrs k
      = (u.lookup k).getD (r.attrs k) := by
  induction u generalizing r with
  | nil => rfl
  | cons kv rest ih =>
    obtain ⟨k1, v1⟩ := kv
    simp only [List.map_cons, List.nodup_cons] at hnd
    rw [List.foldl_cons, ih _ hnd.2]
    by_cases hk : k = k1
    · subst hk
      rw [lookup_eq_none_of_not_mem rest k hnd.1]
      simp [List.lookup, Rec.setAttr]
    · simp [List.lookup, beq_eq_false_iff_ne.mpr hk, Rec.setAttr, hk]

/-- Helper: rows that survived the deletion pass of `delete_value` cannot
match the same filters again: the re-query comes back empty. -/
theorem filterBy_filter_not {V : Type} [DecidableEq V] (db : List (Rec V))
    (kwargs : List (String × V)) :
    filterBy (db.filter fun r => ! matchesBy kwargs r) kwargs = [] := by
  simp [filterBy, List.filter_filter]

/-- C5: `delete_value` removes every matching row, commits exactly once,
and its returned flag is `True` iff the post-delete re-query with the same
filters finds zero remaining matches.  In this sequential model the
re-query is always empty, so the flag is always `True` — independently of
how many rows were matched or deleted. -/
theorem adapter_delete_value_deletes_and_flags {V : Type} [DecidableEq V]
    (db : List (Rec V)) (kwargs : List (String × V)) :
    (delete_value db kwargs).1 = db.filter (fun r => ! matchesBy kwargs r) ∧
    ((delete_value db kwargs).2.1 = true ↔ filterBy (delete_value db kwargs).1 kwargs = []) ∧
    (delete_value db kwargs).2.1 = true ∧
    (delete_value db kwargs).2.2 = 1 := by
  refine ⟨rfl, ?_, ?_, rfl⟩
  · show (filterBy (db.filter fun r => ! matchesBy kwargs r) kwargs).isEmpty = true ↔ _
    rw [filterBy_filter_not]
    simp [delete_value, filterBy_filter_not]
  · show (filterBy (db.filter fun r => ! matchesBy kwargs r) kwargs).isEmpty = true
    rw [filterBy_filter_not]
    rfl

/-- C2: the claim is refuted by the code — `update_values` on an id with no
matching record RAISES instead of returning the not-found signal.  The
missing `row is None` check means `setattr(None, 'title', ...)` raises
`AttributeError` (with no keyword arguments, `refresh(None)` raises); the
ok-with-`None` outcome promised by the declared return type `T | None` is
unreachable.  On a hit the fields are overwritten as claimed
(see the C4 theorem). -/
theorem adapter_update_values_miss_raises :
    update_values ([] : List (Rec Int)) 1 [("title", 7)]
      = Except.error "AttributeError: 'NoneType' object has no attribute 'title'" ∧
    update_values ([] : List (Rec Int)) 1 []
      = Except.error "UnmappedInstanceError: None is not mapped" ∧
    (∀ (db db2 : List (Rec Int)) (row_id : Int) (kwargs : List (String × Int)),
      update_values db row_id kwargs ≠ Except.ok (db2, none)) := by
  refine ⟨rfl, rfl, ?_⟩
  intro db db2 row_id kwargs h
  unfold update_values at h
  cases hro : read_value db [("id", row_id)] with
  | none =>
    rw [hro] at h
    cases kwargs with
    | nil => exact absurd h (by simp)
    | cons kv rest => exact absurd h (by simp)
  | some row =>
    rw [hro] at h
    simp at h

/-- C2 (witness): the no-raise conjunct applied at a concrete input. -/
theorem adapter_update_values_miss_raises_witness :
    update_values ([] : List (Rec Int)) 1 [("title", 7)] ≠ Except.ok ([], none) :=
  adapter_update_values_miss_raises.2.2 [] [] 1 [("title", 7)]

/-- C1: the claim is refuted by the code — `write_entity` on a non-existent
id does raise, but the exception is the adapter's `AttributeError` (from
`setattr(None, ...)` in `update_values`), not the engine's
`ValueError("Entity with id ... not found")`: the adapter never returns the
`None` the engine's not-found check tests for, so that raise is dead code
(see the C2 theorem). -/
theorem crud_write_entity_miss_attribute_error :
    write_entity specItem toString ([] : List (Rec Int)) [("title", 7)] (some 1)
      = Except.error "AttributeError: 'NoneType' object has no attribute 'title'" ∧
    write_entity specItem toString ([] : List (Rec Int)) [("title", 7)] (some 1)
      ≠ Except.error "ValueError: Entity with id 1 not found" := by
  refine ⟨rfl, ?_⟩
  intro h
  rw [show write_entity specItem toString ([] : List (Rec Int)) [("title", 7)] (some 1)
      = Except.error "AttributeError: 'NoneType' object has no attribute 'title'" from rfl] at h
  injection h with h2
  exact absurd h2 (by decide)

/-- C4: for an existing record `r` identified by `rid` and a partial update
`u` (distinct field names), `write_entity(u, entity_id=rid)` succeeds, the
stored record is replaced by an `r'` that agrees with `u` on every field
present in `u` and with `r` everywhere else, and the response wraps the
read projection of `r'`. -/
theorem crud_write_entity_partial_update_frame {V R : Type} [DecidableEq V]
    (spec : CRUDSpec V R) (vstr : V → String) (db : List (Rec V)) (r : Rec V)
    (u : List (String × V)) (rid : V)
    (hfound : read_value db [("id", rid)] = some r)
    (hnd : (u.map Prod.fst).Nodup) :
    ∃ r', write_entity spec vstr db u (some rid)
        = Except.ok (replaceFirst (matchesBy [("id", rid)]) r' db,
            ⟨spec.to_read r'.attrs⟩) ∧
      ∀ k, r'.attrs k = (u.lookup k).getD (r.attrs k) := by
  refine ⟨u.foldl (fun acc kv => acc.setAttr kv.1 kv.2) r, ?_,
    fun k => foldl_setAttr_attrs u r k hnd⟩
  simp only [write_entity, update_values, hfound]

/-- C4 (witness): updating the age of a stored record with id 1 via a
one-field partial update. -/
theorem crud_write_entity_partial_update_frame_witness :
    read_value [recAlice] [("id", (1 : Int))] = some recAlice ∧
    (([("age", (31 : Int))]).map Prod.fst).Nodup ∧
    ∃ r', write_entity specItem toString [recAlice] [("age", 31)] (some 1)
        = Except.ok (replaceFirst (matchesBy [("id", 1)]) r' [recAlice],
            ⟨specItem.to_read r'.attrs⟩) ∧
      ∀ k, r'.attrs k = (([("age", (31 : Int))]).lookup k).getD (recAlice.attrs k) :=
  ⟨rfl, by decide,
   crud_write_entity_partial_update_frame specItem toString [recAlice] recAlice
     [("age", 31)] 1 rfl (by decide)⟩

/-- C6: `read_entity` looks the record up by the identifying field of the
spec equal to the requested entity id; when no record carries that id it
returns the response wrapping the absent-value marker (`entity = None`).
The operation is a total function of the table contents — it cannot raise
on a miss. -/
theorem crud_read_entity_miss_returns_none {V R : Type} [DecidableEq V]
    (spec : CRUDSpec V R) (db : List (Rec V)) (eid : V)
    (h : ∀ r ∈ db, r.attrs spec.id_field ≠ eid) :
    read_entity spec db eid = ⟨none⟩ := by
  have hf : filterBy db [(spec.id_field, eid)] = [] := by
    unfold filterBy
    rw [List.filter_eq_nil_iff]
    intro r hr
    simp [matchesBy, h r hr]
  unfold read_entity read_value
  rw [hf]
  rfl

/-- C6 (witness): on a table holding only a record with id 2, reading id 1
yields the absent-value marker. -/
theorem crud_read_entity_miss_returns_none_witness :
    (∀ r ∈ [recBob], r.attrs specItem.id_field ≠ (1 : Int)) ∧
    read_entity specItem [recBob] 1 = ⟨none⟩ :=
  ⟨by decide, crud_read_entity_miss_returns_none specItem [recBob] 1 (by decide)⟩

/-- C10: `read_entity_relationship` is a total function (it cannot raise),
and when the looked-up entity's attribute with the requested name holds the
absent value (`getattr` yields `None`) the response is the empty
`related_entities` list — exactly the response produced when no attribute
of that name exists on the entity at all, so the two cases are
indistinguishable. -/
theorem crud_read_relationship_unset_empty {V R : Type} [DecidableEq V]
    (spec : CRUDSpec V R) (db : List (Rec V)) (eid : V) (name : String)
    (orm_obj : Rec V)
    (hfound : read_value db [(spec.id_field, eid)] = some orm_obj)
    (h : orm_obj.rel name = some none ∨ orm_obj.rel name = none) :
    read_entity_relationship spec db eid name = ⟨[]⟩ := by
  have hg : orm_obj.getattrRel name = none := by
    cases h with
    | inl h => simp [Rec.getattrRel, h]
    | inr h => simp [Rec.getattrRel, h]
  simp [read_entity_relationship, hfound, hg]

/-- C10 (witness): a stored entity with an existing but unset `friends`
relationship yields an empty related-entities list. -/
theorem crud_read_relationship_unset_empty_witness :
    read_value [recLoner] [(specItem.id_field, (1 : Int))] = some recLoner ∧
    recLoner.rel "friends" = some none ∧
    read_entity_relationship specItem [recLoner] 1 "friends" = ⟨[]⟩ :=
  ⟨rfl, rfl,
   crud_read_relationship_unset_empty specItem [recLoner] 1 "friends" recLoner
     rfl (Or.inl rfl)⟩

end Spec2Proof
